import Mathlib

/-!
Verification of the yt-relay caching and allow-list logic.

This file gives a shallow embedding, in Lean, of the parts of the yt-relay
gateway that its specification talks about:

- the TTL resolver and cache write helpers of `server/route/route.go`
  (`getResponseCacheTTL`, `getHeaderTTL`, `saveCache`, `saveOKCache`,
  `saveErrCache`) and the `/youtube/v3/search` handler pipeline;
- the caching middleware of `middleware/cache.go` (`Cache`);
- the allow-list validator of `whitelist/youtube.go` (`ValidateChannelID`,
  `ValidatePlaylistIDs`, `refreshAndValidatePlaylist`), with time passed
  explicitly and the external CMS fetch as an explicit outcome parameter;
- the configuration validation of the `config` package (`Conf.Valid` and the
  validation tail of `Load`).

Go maps are embedded as association lists; a Go map read `v, ok := m[k]`
becomes `mapRead`, and `m[k]` (zero value on a missing key) becomes
`lookupBoolD`. Durations are integers counting nanoseconds, as in Go, where
`time.Duration` counts nanoseconds. The theorems at the end of the file settle the stated
claims about this code.
-/

namespace YTRelay

/-- Go map read `m[k]` for a `map[string]bool`: the zero value `false` is
returned when the key is absent. -/
def lookupBoolD (m : List (String × Bool)) (k : String) : Bool :=
  (m.lookup k).getD false

/-- Go two-valued map read `v, ok := m[k]` for a `map[string]bool`. -/
def mapRead (m : List (String × Bool)) (k : String) : Bool × Bool :=
  match m.lookup k with
  | some v => (v, true)
  | none => (false, false)

/-- Go `time.Second` in nanoseconds (`time.Duration` counts nanoseconds). -/
def timeSecond : Int := 1000000000

/-- Go `time.Minute` in nanoseconds. -/
def timeMinute : Int := 60 * timeSecond

/-- Go `http.StatusOK`. -/
def statusOK : Int := 200

/-- Go `http.StatusBadRequest`. -/
def statusBadRequest : Int := 400

/-- Go `http.StatusInternalServerError`. -/
def statusInternalServerError : Int := 500

/-- The parts of a Go `http.Request` the cache layer reads: the URL path, the
raw query string, and the value slice stored in the header map under the
canonical `Cache-Set-TTL` key (`none` when the header is absent). -/
structure Request where
  path : String
  query : String
  ttlHeader : Option (List String)
deriving DecidableEq

/-- Go `request.RequestURI` (equivalently `request.URL.String()` for a server
request): the path followed by the query string when one is present. -/
def Request.requestURI (r : Request) : String :=
  r.path ++ (if r.query = "" then "" else "?" ++ r.query)

/-- Digits of a decimal numeral folded into a natural number. -/
def digitsToNat (l : List Char) : Nat :=
  l.foldl (fun acc c => acc * 10 + (c.toNat - 48)) 0

/-- Largest value of the 64-bit Go `int`. -/
def int64Max : Int := 9223372036854775807

/-- Smallest value of the 64-bit Go `int`. -/
def int64Min : Int := -9223372036854775808

/-- Model of Go `strconv.Atoi`: an optional sign followed by at least one
decimal digit, rejected when empty, when a non-digit appears, or when the
value does not fit in a 64-bit `int`. -/
def atoi (s : String) : Except String Int :=
  let p : Int × List Char :=
    match s.data with
    | '+' :: rest => (1, rest)
    | '-' :: rest => (-1, rest)
    | l => (1, l)
  if p.2.isEmpty then Except.error "invalid syntax"
  else if p.2.all Char.isDigit then
    let n : Int := p.1 * (digitsToNat p.2 : Nat)
    if n < int64Min ∨ int64Max < n then Except.error "value out of range"
    else Except.ok n
  else Except.error "invalid syntax"

namespace config

/-- The `config.Cache` struct. `TTL`, `ErrorTTL` and the `OverwriteTTL` values
are counts of seconds, as in the source. -/
structure Cache where
  IsEnabled : Bool
  DisabledAPIs : List (String × Bool)
  TTL : Int
  ErrorTTL : Int
  OverwriteTTL : List (String × Int)
deriving DecidableEq

end config

namespace route

/-- The `getHeaderTTL` function of `server/route/route.go`: reads the
`Cache-Set-TTL` header value slice and returns `(ttl, isPresenting, err)`.
The ttl is in nanoseconds; `err` is `some` exactly when the source sets a
non-nil error (empty value slice, non-numeric value, or a non-positive
value). -/
def getHeaderTTL (r : Request) : Int × Bool × Option String :=
  match r.ttlHeader with
  | none => (0, false, none)
  | some values =>
    match values with
    | [] => (0, true, some "header has empty value")
    | headerTTL :: _ =>
      match atoi headerTTL with
      | Except.error e => (0, true, some e)
      | Except.ok intTTL =>
        if intTTL ≤ 0 then (0, true, some "the value is not positive")
        else (intTTL * timeSecond, true, none)

/-- The `getResponseCacheTTL` function of `server/route/route.go`: the per-URI
overwrite table (keyed by `request.RequestURI`) or the default TTL, then a
present and error-free header TTL overrides it; the disabled flag is the map
read `DisabledAPIs[request.RequestURI]`. -/
def getResponseCacheTTL (cacheConf : config.Cache) (r : Request) : Int × Bool :=
  let ttl : Int :=
    match cacheConf.OverwriteTTL.lookup r.requestURI with
    | some seconds => seconds * timeSecond
    | none => cacheConf.TTL * timeSecond
  let ttl2 : Int :=
    match getHeaderTTL r with
    | (headerTTL, isPresenting, none) => if isPresenting then headerTTL else ttl
    | (_, _, some _) => ttl
  (ttl2, lookupBoolD cacheConf.DisabledAPIs r.requestURI)

end route

/-- Response bodies: `api.ErrorResp` values (an object with one error-message
field) and opaque successful upstream payloads. Modelled from the spec: the
`api` package is not among the provided sources; the spec describes the error
body as a JSON object carrying the error message. -/
inductive Resp where
  | errorResp (msg : String)
  | payload (s : String)
deriving DecidableEq

/-- The `cache.HTTP` struct. Modelled from the spec: the cache entry wire
format is a JSON object holding a status code and the raw bytes of the
original response; the `cache` package is not among the provided sources. -/
structure CacheHTTP where
  StatusCode : Int
  Response : Resp
deriving DecidableEq

/-- A value held by the store: either the serialization of a `cache.HTTP`
entry (serialization is injective, so the entry itself stands for its bytes)
or bytes that do not decode to one. -/
inductive StoredVal where
  | httpEntry (e : CacheHTTP)
  | garbage (s : String)
deriving DecidableEq

/-- Model of `json.Unmarshal` into a `cache.HTTP`: succeeds exactly on values
that are serialized entries. -/
def unmarshalHTTP : StoredVal → Except String CacheHTTP
  | StoredVal.httpEntry e => Except.ok e
  | StoredVal.garbage s => Except.error s

/-- A stored entry together with the expiry it was written with. -/
structure StoredEntry where
  val : StoredVal
  ttl : Int
deriving DecidableEq

/-- The key-value store contents, keyed by cache key. -/
abbrev Store := List (String × StoredEntry)

/-- Modelled from the spec: `cache.GetCacheKey` (the `cache` package is not
among the provided sources) is a pure, total, deterministic function of the
namespace and the full request URI. -/
def getCacheKey (ns uri : String) : Except String String :=
  Except.ok (ns ++ ":" ++ uri)

/-- Modelled from the spec: the conditional write of the store, `setIfAbsent`
(`SetNX`): the write takes effect only when no value currently exists under
the key. -/
def setNX (store : Store) (key : String) (v : StoredVal) (ttl : Int) : Store :=
  match store.lookup key with
  | some _ => store
  | none => (key, ⟨v, ttl⟩) :: store

/-- Modelled from the spec: the `get` of the store, returning an error on a missing
key (as the client library does) so that a miss and a transport error travel
the same error channel. -/
def storeGet (store : Store) (key : String) : Except String StoredVal :=
  match store.lookup key with
  | some e => Except.ok e.val
  | none => Except.error "redis nil"

namespace route

/-- The `saveCache` function of `server/route/route.go`: marshal the response,
wrap it in a `cache.HTTP` with the given status code, derive the key (on a key
derivation error the source only logs and continues with the zero-value key),
and write conditionally with the given ttl. -/
def saveCache (cacheProvider : Store) (appName : String) (r : Request)
    (respCode : Int) (resp : Resp) (ttl : Int) : Store :=
  let key : String :=
    match getCacheKey appName r.requestURI with
    | Except.ok k => k
    | Except.error _ => ""
  setNX cacheProvider key (StoredVal.httpEntry ⟨respCode, resp⟩) ttl

/-- The `saveOKCache` function of `server/route/route.go`: when caching is
enabled and the request is not disabled for caching, store the response under
`http.StatusOK` with the resolved ttl. -/
def saveOKCache (cacheConf : config.Cache) (cacheProvider : Store)
    (appName : String) (r : Request) (resp : Resp) : Store :=
  if cacheConf.IsEnabled then
    let res := getResponseCacheTTL cacheConf r
    if !res.2 then saveCache cacheProvider appName r statusOK resp res.1
    else cacheProvider
  else cacheProvider

/-- The `saveErrCache` function of `server/route/route.go`: when caching is
enabled and the request is not disabled for caching, store the response with
the error TTL. The source passes `http.StatusOK` to `saveCache` and never
reads its `httpResponseCode` parameter; this embedding reproduces that. -/
def saveErrCache (cacheConf : config.Cache) (cacheProvider : Store)
    (appName : String) (r : Request) (httpResponseCode : Int) (resp : Resp) : Store :=
  if cacheConf.IsEnabled then
    let res := getResponseCacheTTL cacheConf r
    if !res.2 then
      saveCache cacheProvider appName r statusOK resp (cacheConf.ErrorTTL * timeSecond)
    else cacheProvider
  else cacheProvider

end route

namespace middleware

/-- Outcome of the caching middleware for one request: either fall through to
the handler (`c.Next()`) or abort with a status code and body
(`c.AbortWithStatusJSON`), in which case the handler never runs. -/
inductive MWOutcome where
  | next
  | abortWithStatusJSON (status : Int) (body : Resp)
deriving DecidableEq

/-- The `Cache` middleware of `middleware/cache.go`. The result of
`cache.GetCacheKey` and the store read are passed explicitly: on a disabled
path fall through at once; on a key derivation error abort with 500; on a get
error (miss or transport) fall through; on a get success that does not decode
fall through; otherwise abort with the stored status code and body. -/
def Cache (cacheConf : config.Cache) (r : Request)
    (keyResult : Except String String)
    (get : String → Except String StoredVal) : MWOutcome :=
  if lookupBoolD cacheConf.DisabledAPIs r.path then MWOutcome.next
  else
    match keyResult with
    | Except.error e =>
      MWOutcome.abortWithStatusJSON statusInternalServerError
        (Resp.errorResp ("Fail to create cache key in cache middleware: " ++ e))
    | Except.ok key =>
      match get key with
      | Except.error _ => MWOutcome.next
      | Except.ok result =>
        match unmarshalHTTP result with
        | Except.error _ => MWOutcome.next
        | Except.ok cacheResp =>
          MWOutcome.abortWithStatusJSON cacheResp.StatusCode cacheResp.Response

end middleware

namespace route

/-- The `ytrelay.Options` query parameters read by the `/search` handler.
Modelled from the spec: the root `ytrelay` package is not among the provided
sources; the handlers read a part parameter, a channel id, a list of video
ids, and a playlist id. -/
structure Options where
  Part : String
  ChannelID : String
  IDs : String
  PlaylistID : String
deriving DecidableEq

/-- The collaborators of the `/youtube/v3/search` handler, passed explicitly:
the outcome of `parseQueries`, the allow-list channel check, and the upstream
`relayService.Search` call. -/
structure SearchDeps where
  parseResult : Except String Options
  validateChannelID : String → Bool
  search : Options → Except String Resp

/-- The full outcome of processing one request: the store after any cache
write, the HTTP status and body sent to the caller, and whether the handler
ran (`false` when the middleware short-circuited the request). -/
structure RequestResult where
  store : Store
  status : Int
  body : Resp
  handlerInvoked : Bool
deriving DecidableEq

/-- The `GET /youtube/v3/search` handler body of `server/route/route.go`:
query binding failure, an empty part, and a rejected channel id each produce a
400 error response saved through `saveErrCache`; an upstream failure produces
a 500 error response saved through `saveErrCache`; success is saved through
`saveOKCache` and answered with 200. -/
def searchHandler (cacheConf : config.Cache) (cacheProvider : Store)
    (appName : String) (r : Request) (d : SearchDeps) : Store × Int × Resp :=
  match d.parseResult with
  | Except.error e =>
    let resp := Resp.errorResp e
    (saveErrCache cacheConf cacheProvider appName r statusBadRequest resp,
      statusBadRequest, resp)
  | Except.ok queries =>
    if queries.Part = "" then
      let resp := Resp.errorResp "part cannot be empty"
      (saveErrCache cacheConf cacheProvider appName r statusBadRequest resp,
        statusBadRequest, resp)
    else if !d.validateChannelID queries.ChannelID then
      let resp := Resp.errorResp ("channelId(" ++ queries.ChannelID ++ ") is invalid")
      (saveErrCache cacheConf cacheProvider appName r statusBadRequest resp,
        statusBadRequest, resp)
    else
      match d.search queries with
      | Except.error e =>
        let resp := Resp.errorResp e
        (saveErrCache cacheConf cacheProvider appName r statusInternalServerError resp,
          statusInternalServerError, resp)
      | Except.ok resp =>
        (saveOKCache cacheConf cacheProvider appName r resp, statusOK, resp)

/-- One `/search` request end to end, as wired by `route.Set`: when caching is
enabled the caching middleware runs first (reading the store through the real
key derivation); on `c.Next()` the handler runs, otherwise the cached answer
is returned and the handler never runs. -/
def processSearch (cacheConf : config.Cache) (appName : String)
    (cacheProvider : Store) (r : Request) (d : SearchDeps) : RequestResult :=
  if cacheConf.IsEnabled then
    match middleware.Cache cacheConf r (getCacheKey appName r.requestURI)
        (storeGet cacheProvider) with
    | middleware.MWOutcome.next =>
      let h := searchHandler cacheConf cacheProvider appName r d
      ⟨h.1, h.2.1, h.2.2, true⟩
    | middleware.MWOutcome.abortWithStatusJSON code body =>
      ⟨cacheProvider, code, body, false⟩
  else
    let h := searchHandler cacheConf cacheProvider appName r d
    ⟨h.1, h.2.1, h.2.2, true⟩

end route

namespace whitelist

/-- The `refreshCooldown` constant of `whitelist/youtube.go`: one minute. -/
def refreshCooldown : Int := 1 * timeMinute

/-- The `YouTubeAPI` whitelist state: the static channel allow-list, the
mutable playlist allow-list, and the last-fetch timestamp (nanoseconds). -/
structure YouTubeAPI where
  ChannelIDs : List (String × Bool)
  PlaylistIDs : List (String × Bool)
  lastFetch : Int
deriving DecidableEq

/-- Outcome of one `cms.FetchPlaylistIDs` call, passed explicitly: the fetched
set, or an error. -/
inductive FetchResult where
  | ok (ids : List (String × Bool))
  | err (msg : String)
deriving DecidableEq

/-- Result of one playlist validation: the boolean answer, the whitelist state
afterwards, and whether the external CMS fetch was invoked. -/
structure ValidateOutcome where
  result : Bool
  state : YouTubeAPI
  fetched : Bool
deriving DecidableEq

/-- The `ValidateChannelID` method of `whitelist/youtube.go`: read the static
channel map and require present-and-effective. -/
def ValidateChannelID (api : YouTubeAPI) (channelID : String) : Bool :=
  let p := mapRead api.ChannelIDs channelID
  p.2 && p.1

/-- The `refreshAndValidatePlaylist` method of `whitelist/youtube.go`, with
the clock reading `now` and the fetch outcome passed explicitly: re-check the
map; inside the cooldown window return false without fetching; on a failed
fetch update only the timestamp and return false; on a successful fetch
replace the playlist map wholesale, update the timestamp, and re-check. -/
def refreshAndValidatePlaylist (api : YouTubeAPI) (now : Int)
    (fetch : FetchResult) (playlistID : String) : ValidateOutcome :=
  let p := mapRead api.PlaylistIDs playlistID
  if p.2 && p.1 then ⟨true, api, false⟩
  else if now - api.lastFetch < refreshCooldown then ⟨false, api, false⟩
  else
    match fetch with
    | FetchResult.err _ => ⟨false, { api with lastFetch := now }, true⟩
    | FetchResult.ok newIDs =>
      let api2 : YouTubeAPI := { api with PlaylistIDs := newIDs, lastFetch := now }
      let q := mapRead api2.PlaylistIDs playlistID
      ⟨q.2 && q.1, api2, true⟩

/-- The `ValidatePlaylistIDs` method of `whitelist/youtube.go`: the fast-path
map read, then escalation to `refreshAndValidatePlaylist` on a miss. -/
def ValidatePlaylistIDs (api : YouTubeAPI) (now : Int) (fetch : FetchResult)
    (playlistID : String) : ValidateOutcome :=
  let p := mapRead api.PlaylistIDs playlistID
  if p.2 && p.1 then ⟨true, api, false⟩
  else refreshAndValidatePlaylist api now fetch playlistID

/-- A sequence of playlist validations run in order: each event carries the
clock reading at the call, the playlist id looked up, and what the CMS fetch
would return if invoked; the output records, per event, the time, the answer,
and whether the fetch was invoked. -/
def runValidate : YouTubeAPI → List (Int × String × FetchResult) → List (Int × Bool × Bool)
  | _, [] => []
  | api, (t, id, fr) :: rest =>
    let o := ValidatePlaylistIDs api t fr id
    (t, o.result, o.fetched) :: runValidate o.state rest

end whitelist

namespace config

/-- The `config.Whitelists` struct: maps whose keys are ids and whose values
say whether the entry is effective. -/
structure Whitelists where
  ChannelIDs : List (String × Bool)
  PlaylistIDs : List (String × Bool)
deriving DecidableEq

/-- The `config.RedisAddress` struct. -/
structure RedisAddress where
  Addr : String
  Port : Int
deriving DecidableEq

/-- The `config.RedisCluster` struct. -/
structure RedisCluster where
  Addrs : List RedisAddress
  Password : String
deriving DecidableEq

/-- The `config.RedisSingleInstance` struct. -/
structure RedisSingleInstance where
  Instance : RedisAddress
  Password : String
deriving DecidableEq

/-- The `config.RedisSentinel` struct. -/
structure RedisSentinel where
  Addrs : List RedisAddress
  Password : String
deriving DecidableEq

/-- The `config.RedisReplicaInstances` struct. -/
structure RedisReplicaInstances where
  MasterAddrs : List RedisAddress
  SlaveAddrs : List RedisAddress
  Password : String
deriving DecidableEq

/-- The `config.RedisService` struct: a type tag plus one optional block per
topology (the Go field named `Type` is spelled `Type'` here, since `Type` is
a Lean keyword). -/
structure RedisService where
  Type' : String
  Cluster : Option RedisCluster
  SingleInstance : Option RedisSingleInstance
  Sentinel : Option RedisSentinel
  Replica : Option RedisReplicaInstances
deriving DecidableEq

/-- The `config.Cluster` type-name constant. -/
def Cluster : String := "cluster"

/-- The `config.Single` type-name constant. -/
def Single : String := "single"

/-- The `config.Sentinel` type-name constant. -/
def SentinelType : String := "sentinel"

/-- The `config.Replica` type-name constant. -/
def Replica : String := "replica"

/-- The `config.Conf` struct (the fields the validation reads). -/
structure Conf where
  AppName : String
  Address : String
  ApiKey : String
  Cache : Cache
  CmsURL : String
  Port : Int
  Redis : Option RedisService
  Whitelists : Whitelists
deriving DecidableEq

/-- The appName check of `Conf.Valid`: the Go regexp match against
`[a-zA-Z0-9.-]` one or more times, anchored at both ends. -/
def isValidAppName (s : String) : Bool :=
  !s.isEmpty && s.data.all (fun c => c.isAlphanum || c == '.' || c == '-')

/-- The cache section of `Conf.Valid`: when the cache is enabled, the default
ttl, the error ttl, and every overwrite ttl must be positive. -/
def cacheValid (cc : Cache) : Bool :=
  if cc.IsEnabled then
    if cc.TTL ≤ 0 then false
    else if cc.ErrorTTL ≤ 0 then false
    else if cc.OverwriteTTL.any (fun p => p.2 ≤ 0) then false
    else true
  else true

/-- The address-list checks shared by the cluster, sentinel, and replica arms
of `Conf.Valid`: the list must be non-empty and no address inside it may be
the empty string. -/
def addrsValid (addrs : List RedisAddress) : Bool :=
  !addrs.isEmpty && addrs.all (fun a => a.Addr.length != 0)

/-- The redis section of `Conf.Valid`: with no redis block the section passes;
otherwise the arm selected by the type tag requires its block to be present
and its addresses to be well-formed, and an unsupported type tag fails. -/
def redisValid : Option RedisService → Bool
  | none => true
  | some redis =>
    if redis.Type' = Cluster then
      match redis.Cluster with
      | none => false
      | some cluster => addrsValid cluster.Addrs
    else if redis.Type' = Single then
      match redis.SingleInstance with
      | none => false
      | some single => single.Instance.Addr != ""
    else if redis.Type' = SentinelType then
      match redis.Sentinel with
      | none => false
      | some sentinel => addrsValid sentinel.Addrs
    else if redis.Type' = Replica then
      match redis.Replica with
      | none => false
      | some replica => addrsValid replica.MasterAddrs && addrsValid replica.SlaveAddrs
    else false

/-- The `Conf.Valid` method of the `config` package: the early-return checks
on appName, apiKey, the channel allow-list, cmsUrl, and the cache section,
then the redis topology section. -/
def Conf.Valid (c : Conf) : Bool :=
  if !isValidAppName c.AppName then false
  else if c.ApiKey = "" then false
  else if c.Whitelists.ChannelIDs.length = 0 then false
  else if c.CmsURL = "" then false
  else if !cacheValid c.Cache then false
  else redisValid c.Redis

/-- The validation tail of `config.Load`: after unmarshalling (file or
environment input, not modelled here since it is I/O), an invalid
configuration makes loading fail with an error, so the process never starts
serving with it. -/
def Load (cfg : Conf) : Except String Conf :=
  if !cfg.Valid then Except.error "invalid configuration"
  else Except.ok cfg

/-- The description, in the claim, of a missing or inconsistent topology
section, stated from the words of the claim for comparison with `redisValid`: an
unsupported type name, a missing variant block, an empty address list, or an
empty address inside a list. -/
def redisShapeBad (redis : RedisService) : Bool :=
  if redis.Type' = Cluster then
    match redis.Cluster with
    | none => true
    | some cluster => cluster.Addrs.isEmpty || cluster.Addrs.any (fun a => a.Addr == "")
  else if redis.Type' = Single then
    match redis.SingleInstance with
    | none => true
    | some single => single.Instance.Addr == ""
  else if redis.Type' = SentinelType then
    match redis.Sentinel with
    | none => true
    | some sentinel => sentinel.Addrs.isEmpty || sentinel.Addrs.any (fun a => a.Addr == "")
  else if redis.Type' = Replica then
    match redis.Replica with
    | none => true
    | some replica =>
      replica.MasterAddrs.isEmpty || replica.MasterAddrs.any (fun a => a.Addr == "") ||
      replica.SlaveAddrs.isEmpty || replica.SlaveAddrs.any (fun a => a.Addr == "")
  else true

end config

/-- A cache configuration for the error-caching scenario: caching enabled, no
disabled paths, default TTL 300 seconds, error TTL 10 seconds, no per-path
overrides. -/
def c1CacheConf : config.Cache := ⟨true, [], 300, 10, []⟩

/-- The request of the error-caching scenario: a search with a channel id the
allow-list rejects, no TTL header. -/
def c1Req : Request := ⟨"/youtube/v3/search", "channelId=bad", none⟩

/-- The handler collaborators of the error-caching scenario: query binding
succeeds, the channel allow-list rejects every id, the upstream would
succeed. -/
def c1Deps : route.SearchDeps :=
  ⟨Except.ok ⟨"snippet", "bad", "", ""⟩, fun _ => false,
    fun _ => Except.ok (Resp.payload "r")⟩

/-- The first request of the error-caching scenario, against an empty store. -/
def c1First : route.RequestResult :=
  route.processSearch c1CacheConf "app" [] c1Req c1Deps

/-- The identical second request, against the store the first one produced. -/
def c1Second : route.RequestResult :=
  route.processSearch c1CacheConf "app" c1First.store c1Req c1Deps

/-- A configuration whose redis section selects the cluster topology but
carries no cluster block, while every other section is well-formed. -/
def c9Conf : config.Conf :=
  ⟨"app", "0.0.0.0", "key", ⟨false, [], 0, 0, []⟩, "http://cms", 8080,
    some ⟨"cluster", none, none, none, none⟩, ⟨[("c1", true)], []⟩⟩

namespace route

/-- The description, in the claim, of a present and valid TTL override
header, stated from the words of the claim for comparison with `getHeaderTTL`: the header
is present with a first value that parses as a positive integer count of
seconds; anything else (absent, empty, non-numeric, zero, negative) yields
no override. -/
def specHeaderOverride (r : Request) : Option Int :=
  match r.ttlHeader with
  | some (v :: _) =>
    match atoi v with
    | Except.ok n => if 0 < n then some n else none
    | Except.error _ => none
  | _ => none

/-- The TTL precedence of the claim, stated from the words of the claim (with
the table key corrected to the full request URI) for comparison with
`getResponseCacheTTL`: a valid header override wins, else the configured
override for the request URI, else the default. -/
def specResolveTTL (cacheConf : config.Cache) (r : Request) : Int :=
  match specHeaderOverride r with
  | some n => n * timeSecond
  | none =>
    match cacheConf.OverwriteTTL.lookup r.requestURI with
    | some seconds => seconds * timeSecond
    | none => cacheConf.TTL * timeSecond

end route

section WhitelistLemmas

open whitelist

/-- The doubled map read of the validator, phrased through `List.lookup`. -/
theorem mapRead_and_eq (m : List (String × Bool)) (k : String) :
    ((mapRead m k).2 && (mapRead m k).1) = (m.lookup k).getD false := by
  unfold mapRead
  cases h : m.lookup k with
  | none => simp
  | some v => cases v <;> simp

/-- A map read answers `true` exactly on present-and-effective entries. -/
theorem mapRead_and_eq_true (m : List (String × Bool)) (k : String) :
    ((mapRead m k).2 && (mapRead m k).1) = true ↔ m.lookup k = some true := by
  rw [mapRead_and_eq]
  cases h : m.lookup k with
  | none => simp
  | some v => cases v <;> simp

/-- A hit on a present-and-effective playlist id answers true at once, with no
state change and no fetch. -/
theorem validate_hit (api : YouTubeAPI) (now : Int) (fetch : FetchResult)
    (id : String) (h : api.PlaylistIDs.lookup id = some true) :
    ValidatePlaylistIDs api now fetch id = ⟨true, api, false⟩ := by
  have hb : ((mapRead api.PlaylistIDs id).2 && (mapRead api.PlaylistIDs id).1) = true :=
    (mapRead_and_eq_true _ _).mpr h
  unfold ValidatePlaylistIDs
  simp [hb]

/-- A miss inside the cooldown window answers false with no state change and
no fetch. -/
theorem validate_cooldown_blocks (api : YouTubeAPI) (now : Int)
    (fetch : FetchResult) (id : String)
    (hmiss : api.PlaylistIDs.lookup id ≠ some true)
    (hcool : now - api.lastFetch < refreshCooldown) :
    ValidatePlaylistIDs api now fetch id = ⟨false, api, false⟩ := by
  have hb : ((mapRead api.PlaylistIDs id).2 && (mapRead api.PlaylistIDs id).1) = false := by
    cases hx : ((mapRead api.PlaylistIDs id).2 && (mapRead api.PlaylistIDs id).1) with
    | false => rfl
    | true => exact absurd ((mapRead_and_eq_true _ _).mp hx) hmiss
  unfold ValidatePlaylistIDs refreshAndValidatePlaylist
  simp [hb, hcool]

/-- A miss past the cooldown with a failing fetch answers false, leaves the
playlist map unchanged, and updates only the timestamp. -/
theorem validate_fetch_err (api : YouTubeAPI) (now : Int) (msg : String)
    (id : String)
    (hmiss : api.PlaylistIDs.lookup id ≠ some true)
    (hcool : refreshCooldown ≤ now - api.lastFetch) :
    ValidatePlaylistIDs api now (FetchResult.err msg) id =
      ⟨false, { api with lastFetch := now }, true⟩ := by
  have hb : ((mapRead api.PlaylistIDs id).2 && (mapRead api.PlaylistIDs id).1) = false := by
    cases hx : ((mapRead api.PlaylistIDs id).2 && (mapRead api.PlaylistIDs id).1) with
    | false => rfl
    | true => exact absurd ((mapRead_and_eq_true _ _).mp hx) hmiss
  unfold ValidatePlaylistIDs refreshAndValidatePlaylist
  simp [hb, not_lt.mpr hcool]

/-- A miss past the cooldown with a successful fetch replaces the playlist
map wholesale, updates the timestamp, and answers by the re-check in the
fetched map. -/
theorem validate_fetch_ok (api : YouTubeAPI) (now : Int)
    (newIDs : List (String × Bool)) (id : String)
    (hmiss : api.PlaylistIDs.lookup id ≠ some true)
    (hcool : refreshCooldown ≤ now - api.lastFetch) :
    ValidatePlaylistIDs api now (FetchResult.ok newIDs) id =
      ⟨(newIDs.lookup id).getD false,
        { api with PlaylistIDs := newIDs, lastFetch := now }, true⟩ := by
  have hb : ((mapRead api.PlaylistIDs id).2 && (mapRead api.PlaylistIDs id).1) = false := by
    cases hx : ((mapRead api.PlaylistIDs id).2 && (mapRead api.PlaylistIDs id).1) with
    | false => rfl
    | true => exact absurd ((mapRead_and_eq_true _ _).mp hx) hmiss
  unfold ValidatePlaylistIDs refreshAndValidatePlaylist
  simp [hb, not_lt.mpr hcool, mapRead_and_eq]

end WhitelistLemmas

section CooldownLemmas

open whitelist

/-- When a validation invoked the external fetch, the timestamp afterwards is
the call time and the cooldown had elapsed before the call. -/
theorem validate_fetched (api : YouTubeAPI) (now : Int) (fetch : FetchResult)
    (id : String) (h : (ValidatePlaylistIDs api now fetch id).fetched = true) :
    (ValidatePlaylistIDs api now fetch id).state.lastFetch = now ∧
      refreshCooldown ≤ now - api.lastFetch := by
  by_cases hm : api.PlaylistIDs.lookup id = some true
  · rw [validate_hit api now fetch id hm] at h
    simp at h
  · by_cases hc : now - api.lastFetch < refreshCooldown
    · rw [validate_cooldown_blocks api now fetch id hm hc] at h
      simp at h
    · have hc2 : refreshCooldown ≤ now - api.lastFetch := not_lt.mp hc
      cases fetch with
      | err msg => rw [validate_fetch_err api now msg id hm hc2]; exact ⟨rfl, hc2⟩
      | ok newIDs => rw [validate_fetch_ok api now newIDs id hm hc2]; exact ⟨rfl, hc2⟩

/-- When a validation did not invoke the external fetch, the state is
untouched. -/
theorem validate_not_fetched (api : YouTubeAPI) (now : Int) (fetch : FetchResult)
    (id : String) (h : (ValidatePlaylistIDs api now fetch id).fetched = false) :
    (ValidatePlaylistIDs api now fetch id).state = api := by
  by_cases hm : api.PlaylistIDs.lookup id = some true
  · rw [validate_hit api now fetch id hm]
  · by_cases hc : now - api.lastFetch < refreshCooldown
    · rw [validate_cooldown_blocks api now fetch id hm hc]
    · have hc2 : refreshCooldown ≤ now - api.lastFetch := not_lt.mp hc
      cases fetch with
      | err msg => rw [validate_fetch_err api now msg id hm hc2] at h; simp at h
      | ok newIDs => rw [validate_fetch_ok api now newIDs id hm hc2] at h; simp at h

/-- The last-fetch timestamp never moves backwards across a validation. -/
theorem validate_lastFetch_mono (api : YouTubeAPI) (now : Int)
    (fetch : FetchResult) (id : String) :
    api.lastFetch ≤ (ValidatePlaylistIDs api now fetch id).state.lastFetch := by
  cases hf : (ValidatePlaylistIDs api now fetch id).fetched with
  | false => rw [validate_not_fetched api now fetch id hf]
  | true =>
    obtain ⟨heq, hc⟩ := validate_fetched api now fetch id hf
    rw [heq]
    have hp : (0 : Int) < refreshCooldown := by decide
    linarith

/-- Any fetch performed during a run happens no earlier than one cooldown
after the timestamp the run started from. -/
theorem runValidate_fetch_lb (events : List (Int × String × FetchResult)) :
    ∀ (api : YouTubeAPI) (i : Nat) (t : Int) (res : Bool),
      (runValidate api events).get? i = some (t, res, true) →
      api.lastFetch + refreshCooldown ≤ t := by
  induction events with
  | nil =>
    intro api i t res h
    simp [runValidate] at h
  | cons e rest ih =>
    intro api i t res h
    obtain ⟨t0, id0, fr0⟩ := e
    simp only [runValidate] at h
    cases i with
    | zero =>
      rw [List.get?_cons_zero] at h
      have h2 := Option.some.inj h
      have ht : t0 = t := congrArg Prod.fst h2
      have hf : (ValidatePlaylistIDs api t0 fr0 id0).fetched = true :=
        congrArg (fun p => p.2.2) h2
      obtain ⟨_, hc⟩ := validate_fetched api t0 fr0 id0 hf
      linarith [hc, ht.ge, ht.le]
    | succ n =>
      rw [List.get?_cons_succ] at h
      have h3 := ih (ValidatePlaylistIDs api t0 fr0 id0).state n t res h
      have hm := validate_lastFetch_mono api t0 fr0 id0
      linarith

/-- Two fetches within one run are at least one cooldown apart. -/
theorem runValidate_two_fetches (events : List (Int × String × FetchResult)) :
    ∀ (api : YouTubeAPI) (i j : Nat) (ti tj : Int) (ri rj : Bool), i < j →
      (runValidate api events).get? i = some (ti, ri, true) →
      (runValidate api events).get? j = some (tj, rj, true) →
      refreshCooldown ≤ tj - ti := by
  induction events with
  | nil =>
    intro api i j ti tj ri rj hij hi hj
    simp [runValidate] at hi
  | cons e rest ih =>
    intro api i j ti tj ri rj hij hi hj
    obtain ⟨t0, id0, fr0⟩ := e
    simp only [runValidate] at hi hj
    cases j with
    | zero => omega
    | succ m =>
      rw [List.get?_cons_succ] at hj
      cases i with
      | zero =>
        rw [List.get?_cons_zero] at hi
        have h2 := Option.some.inj hi
        have ht : t0 = ti := congrArg Prod.fst h2
        have hf : (ValidatePlaylistIDs api t0 fr0 id0).fetched = true :=
          congrArg (fun p => p.2.2) h2
        obtain ⟨hlf, _⟩ := validate_fetched api t0 fr0 id0 hf
        have hlb := runValidate_fetch_lb rest (ValidatePlaylistIDs api t0 fr0 id0).state
          m tj rj hj
        rw [hlf] at hlb
        linarith [ht.le, ht.ge]
      | succ n =>
        rw [List.get?_cons_succ] at hi
        exact ih (ValidatePlaylistIDs api t0 fr0 id0).state n m ti tj ri rj
          (by omega) hi hj

end CooldownLemmas

section Claims

open whitelist route

/-- C5: whenever less than the cooldown has elapsed since the last fetch, a
playlist lookup that misses returns false without invoking the external
refresh; and across any run of lookups, two invocations of the external fetch
are at least one cooldown apart, so a window shorter than the cooldown holds
at most one fetch. -/
theorem c5_cooldown_invariant :
    (∀ (api : YouTubeAPI) (now : Int) (fetch : FetchResult) (id : String),
      api.PlaylistIDs.lookup id ≠ some true →
      now - api.lastFetch < refreshCooldown →
      ValidatePlaylistIDs api now fetch id = ⟨false, api, false⟩) ∧
    (∀ (api : YouTubeAPI) (events : List (Int × String × FetchResult))
      (i j : Nat) (ti tj : Int) (ri rj : Bool), i < j →
      (runValidate api events).get? i = some (ti, ri, true) →
      (runValidate api events).get? j = some (tj, rj, true) →
      refreshCooldown ≤ tj - ti) :=
  ⟨fun api now fetch id hm hc => validate_cooldown_blocks api now fetch id hm hc,
   fun api events i j ti tj ri rj hij hi hj =>
     runValidate_two_fetches events api i j ti tj ri rj hij hi hj⟩

/-- Witness for C5: a miss thirty seconds after the last fetch is answered
false with no fetch; in a run whose two fetches happen at times 0 and 70
seconds, the gap is at least the one-minute cooldown. -/
theorem c5_cooldown_invariant_witness :
    ValidatePlaylistIDs ⟨[], [], 0⟩ 30000000000 (FetchResult.err "down") "P1" =
      ⟨false, ⟨[], [], 0⟩, false⟩ ∧
    refreshCooldown ≤ (70000000000 : Int) - 0 :=
  ⟨c5_cooldown_invariant.1 ⟨[], [], 0⟩ 30000000000 (FetchResult.err "down") "P1"
      (by decide) (by decide),
   c5_cooldown_invariant.2 ⟨[], [], -60000000000⟩
      [(0, "P1", FetchResult.err "a"), (70000000000, "P1", FetchResult.err "b")]
      0 1 0 70000000000 false false (by decide) (by decide) (by decide)⟩

/-- C6: a failed refresh is absorbed (the call still answers a plain boolean,
false), the playlist set is left unchanged, and the last-fetch timestamp is
still moved to the time of the failed attempt. -/
theorem c6_failed_refresh_absorbed (api : YouTubeAPI) (now : Int)
    (msg : String) (id : String)
    (hmiss : api.PlaylistIDs.lookup id ≠ some true)
    (hcool : refreshCooldown ≤ now - api.lastFetch) :
    (ValidatePlaylistIDs api now (FetchResult.err msg) id).result = false ∧
    (ValidatePlaylistIDs api now (FetchResult.err msg) id).state.PlaylistIDs =
      api.PlaylistIDs ∧
    (ValidatePlaylistIDs api now (FetchResult.err msg) id).state.lastFetch = now ∧
    (ValidatePlaylistIDs api now (FetchResult.err msg) id).fetched = true := by
  rw [validate_fetch_err api now msg id hmiss hcool]
  exact ⟨rfl, rfl, rfl, rfl⟩

/-- Witness for C6: a failed refresh for an absent id, one minute after the
last fetch. -/
theorem c6_failed_refresh_absorbed_witness :
    (ValidatePlaylistIDs ⟨[], [("P0", true)], 0⟩ 60000000000
        (FetchResult.err "cms down") "P1").result = false ∧
    (ValidatePlaylistIDs ⟨[], [("P0", true)], 0⟩ 60000000000
        (FetchResult.err "cms down") "P1").state.PlaylistIDs = [("P0", true)] ∧
    (ValidatePlaylistIDs ⟨[], [("P0", true)], 0⟩ 60000000000
        (FetchResult.err "cms down") "P1").state.lastFetch = 60000000000 ∧
    (ValidatePlaylistIDs ⟨[], [("P0", true)], 0⟩ 60000000000
        (FetchResult.err "cms down") "P1").fetched = true :=
  c6_failed_refresh_absorbed ⟨[], [("P0", true)], 0⟩ 60000000000 "cms down" "P1"
    (by decide) (by decide)

/-- C7: a successful refresh replaces the playlist set wholesale with the
fetched set, updates the timestamp, and answers the pending id by a re-check
in the fetched set: true exactly when the id is present and effective there,
false for any id absent from it. -/
theorem c7_successful_refresh_replaces (api : YouTubeAPI) (now : Int)
    (newIDs : List (String × Bool)) (id : String)
    (hmiss : api.PlaylistIDs.lookup id ≠ some true)
    (hcool : refreshCooldown ≤ now - api.lastFetch) :
    (ValidatePlaylistIDs api now (FetchResult.ok newIDs) id).state.PlaylistIDs =
      newIDs ∧
    (ValidatePlaylistIDs api now (FetchResult.ok newIDs) id).state.lastFetch = now ∧
    ((ValidatePlaylistIDs api now (FetchResult.ok newIDs) id).result = true ↔
      newIDs.lookup id = some true) ∧
    (ValidatePlaylistIDs api now (FetchResult.ok newIDs) id).fetched = true := by
  rw [validate_fetch_ok api now newIDs id hmiss hcool]
  refine ⟨rfl, rfl, ?_, rfl⟩
  cases h : newIDs.lookup id with
  | none => simp
  | some v => cases v <;> simp

/-- Witness for C7: a refresh returning the set with P1 and P2, triggered by a
lookup of P1 one minute after the last fetch. -/
theorem c7_successful_refresh_replaces_witness :
    (ValidatePlaylistIDs ⟨[], [], 0⟩ 60000000000
        (FetchResult.ok [("P1", true), ("P2", true)]) "P1").state.PlaylistIDs =
      [("P1", true), ("P2", true)] ∧
    (ValidatePlaylistIDs ⟨[], [], 0⟩ 60000000000
        (FetchResult.ok [("P1", true), ("P2", true)]) "P1").state.lastFetch =
      60000000000 ∧
    ((ValidatePlaylistIDs ⟨[], [], 0⟩ 60000000000
        (FetchResult.ok [("P1", true), ("P2", true)]) "P1").result = true ↔
      ([("P1", true), ("P2", true)] : List (String × Bool)).lookup "P1" = some true) ∧
    (ValidatePlaylistIDs ⟨[], [], 0⟩ 60000000000
        (FetchResult.ok [("P1", true), ("P2", true)]) "P1").fetched = true :=
  c7_successful_refresh_replaces ⟨[], [], 0⟩ 60000000000
    [("P1", true), ("P2", true)] "P1" (by decide) (by decide)

/-- C8: the channel check answers true exactly on present-and-effective
entries, so an entry mapped to false is rejected identically to an absent
one; and a playlist validation answers true exactly when the id is present
and effective in the playlist set it finishes with, so an ineffective entry
is likewise indistinguishable from an absent one. -/
theorem c8_ineffective_rejected (api : YouTubeAPI) (now : Int)
    (fetch : FetchResult) (channelID playlistID : String) :
    (ValidateChannelID api channelID = true ↔
      api.ChannelIDs.lookup channelID = some true) ∧
    ((ValidatePlaylistIDs api now fetch playlistID).result = true ↔
      (ValidatePlaylistIDs api now fetch playlistID).state.PlaylistIDs.lookup
        playlistID = some true) := by
  constructor
  · show ((mapRead api.ChannelIDs channelID).2 && (mapRead api.ChannelIDs channelID).1) = true ↔ _
    exact mapRead_and_eq_true _ _
  · by_cases hm : api.PlaylistIDs.lookup playlistID = some true
    · rw [validate_hit api now fetch playlistID hm]
      simpa using hm
    · by_cases hc : now - api.lastFetch < refreshCooldown
      · rw [validate_cooldown_blocks api now fetch playlistID hm hc]
        simpa using hm
      · have hc2 : refreshCooldown ≤ now - api.lastFetch := not_lt.mp hc
        cases fetch with
        | err msg =>
          rw [validate_fetch_err api now msg playlistID hm hc2]
          simpa using hm
        | ok newIDs =>
          rw [validate_fetch_ok api now newIDs playlistID hm hc2]
          cases h : newIDs.lookup playlistID with
          | none => simp
          | some v => cases v <;> simp

/-- C4: at the entry checkpoint a transport error from the get of the store is
never a cache hit and never fails the request: for a non-disabled path the
middleware falls through to the handler (`next`), exactly the miss
behavior. -/
theorem c4_transport_error_fails_open (cacheConf : config.Cache) (r : Request)
    (key msg : String)
    (hdis : lookupBoolD cacheConf.DisabledAPIs r.path = false) :
    middleware.Cache cacheConf r (Except.ok key)
      (fun _ => Except.error msg) = middleware.MWOutcome.next := by
  unfold middleware.Cache
  simp [hdis]

/-- Witness for C4: a timeout while reading the cache for a search request
lets the request proceed to the handler. -/
theorem c4_transport_error_fails_open_witness :
    middleware.Cache ⟨true, [], 300, 10, []⟩
      ⟨"/youtube/v3/search", "part=snippet", none⟩ (Except.ok "k")
      (fun _ => Except.error "dial tcp: timeout") = middleware.MWOutcome.next :=
  c4_transport_error_fails_open ⟨true, [], 300, 10, []⟩
    ⟨"/youtube/v3/search", "part=snippet", none⟩ "k" "dial tcp: timeout" (by decide)

/-- C10: at the entry checkpoint a cache-key derivation error aborts the
request with HTTP 500 and the wrapped error body, whatever the store would
answer — so the handler never runs and the store is not consulted. -/
theorem c10_key_error_aborts (cacheConf : config.Cache) (r : Request)
    (e : String) (get : String → Except String StoredVal)
    (hdis : lookupBoolD cacheConf.DisabledAPIs r.path = false) :
    middleware.Cache cacheConf r (Except.error e) get =
      middleware.MWOutcome.abortWithStatusJSON statusInternalServerError
        (Resp.errorResp ("Fail to create cache key in cache middleware: " ++ e)) := by
  unfold middleware.Cache
  simp [hdis]

/-- Witness for C10: a key derivation error on a search request aborts with
500 against a store that would have answered. -/
theorem c10_key_error_aborts_witness :
    middleware.Cache ⟨true, [], 300, 10, []⟩
      ⟨"/youtube/v3/search", "part=snippet", none⟩ (Except.error "bad namespace")
      (storeGet [("k", ⟨StoredVal.httpEntry ⟨200, Resp.payload "x"⟩, 300⟩)]) =
      middleware.MWOutcome.abortWithStatusJSON statusInternalServerError
        (Resp.errorResp "Fail to create cache key in cache middleware: bad namespace") :=
  c10_key_error_aborts ⟨true, [], 300, 10, []⟩
    ⟨"/youtube/v3/search", "part=snippet", none⟩ "bad namespace"
    (storeGet [("k", ⟨StoredVal.httpEntry ⟨200, Resp.payload "x"⟩, 300⟩)]) (by decide)

/-- Counterexample to C2 as stated: with `/search` in the disabled set and the
request `/search?q=1`, caching is not skipped entirely — the exit checkpoint
does write, because the write-side disabled check reads the full request URI
while the entry checkpoint reads the bare path. -/
theorem c2_counterexample :
    lookupBoolD ([("/search", true)] : List (String × Bool)) "/search" = true ∧
    route.saveErrCache ⟨true, [("/search", true)], 300, 10, []⟩ [] "app"
      ⟨"/search", "q=1", none⟩ statusBadRequest (Resp.errorResp "bad") ≠
      ([] : Store) := by decide

/-- C2 as amended: for a path in the disabled set the entry checkpoint never
reads the cache and never short-circuits, regardless of query string, header,
and store contents; the exit checkpoint skips the write whenever the full
request URI — which is the path exactly when the query string is empty — is
in the disabled set. -/
theorem c2_disabled_path_amended (cacheConf : config.Cache) (r : Request)
    (store : Store) (appName : String) (code : Int) (resp : Resp)
    (keyResult : Except String String) (get : String → Except String StoredVal) :
    (lookupBoolD cacheConf.DisabledAPIs r.path = true →
      middleware.Cache cacheConf r keyResult get = middleware.MWOutcome.next) ∧
    (lookupBoolD cacheConf.DisabledAPIs r.requestURI = true →
      route.saveErrCache cacheConf store appName r code resp = store ∧
      route.saveOKCache cacheConf store appName r resp = store) := by
  constructor
  · intro h
    unfold middleware.Cache
    simp [h]
  · intro h
    have h2 : (route.getResponseCacheTTL cacheConf r).2 = true := h
    constructor
    · unfold route.saveErrCache
      by_cases he : cacheConf.IsEnabled <;> simp [he, h2]
    · unfold route.saveOKCache
      by_cases he : cacheConf.IsEnabled <;> simp [he, h2]

/-- Witness for C2 as amended: with `/x` disabled and a query-free request to
`/x`, the middleware falls through and neither save writes. -/
theorem c2_disabled_path_amended_witness :
    middleware.Cache ⟨true, [("/x", true)], 300, 10, []⟩ ⟨"/x", "", none⟩
      (Except.ok "k") (storeGet []) = middleware.MWOutcome.next ∧
    (route.saveErrCache ⟨true, [("/x", true)], 300, 10, []⟩ [] "app"
        ⟨"/x", "", none⟩ statusBadRequest (Resp.errorResp "e") = ([] : Store) ∧
      route.saveOKCache ⟨true, [("/x", true)], 300, 10, []⟩ [] "app"
        ⟨"/x", "", none⟩ (Resp.errorResp "e") = ([] : Store)) :=
  ⟨(c2_disabled_path_amended ⟨true, [("/x", true)], 300, 10, []⟩ ⟨"/x", "", none⟩
      [] "app" statusBadRequest (Resp.errorResp "e") (Except.ok "k")
      (storeGet [])).1 (by decide),
   (c2_disabled_path_amended ⟨true, [("/x", true)], 300, 10, []⟩ ⟨"/x", "", none⟩
      [] "app" statusBadRequest (Resp.errorResp "e") (Except.ok "k")
      (storeGet [])).2 (by decide)⟩

/-- Counterexample to C3 as stated: a per-path TTL of 99 seconds is configured
for the exact path `/videos`, yet the request `/videos?a=1` with no header
resolves to the default 5 seconds — the table is consulted by full request
URI, not by path. -/
theorem c3_counterexample :
    (([("/videos", 99)] : List (String × Int)).lookup "/videos" = some 99) ∧
    (route.getResponseCacheTTL ⟨true, [], 5, 10, [("/videos", 99)]⟩
        ⟨"/videos", "a=1", none⟩).1 = 5 * timeSecond := by decide

/-- C3 as amended: the effective write TTL is resolved with the exact
precedence of the claim except that the override table is consulted by exact
string match on the full request URI: a present and valid (positive integer)
header wins; otherwise a configured override for the request URI; otherwise
the default; a present-but-invalid header falls through without failing. -/
theorem c3_ttl_precedence_amended (cacheConf : config.Cache) (r : Request) :
    (route.getResponseCacheTTL cacheConf r).1 = route.specResolveTTL cacheConf r := by
  obtain ⟨path, query, hdr⟩ := r
  unfold route.getResponseCacheTTL route.specResolveTTL route.specHeaderOverride
    route.getHeaderTTL
  cases hdr with
  | none => simp
  | some values =>
    cases values with
    | nil => simp
    | cons v rest =>
      cases ha : atoi v with
      | error e => simp [ha]
      | ok n =>
        by_cases hn : n ≤ 0
        · simp [ha, hn, not_lt.mpr hn]
        · simp [ha, hn, not_le.mp hn]

/-- C1, evaluated at the failing input: the rejected search is answered 400
with an error body and the body is cached under the error TTL (10 seconds,
not the 300-second default) — but the entry is stored with status 200,
because `saveErrCache` ignores its status argument and passes `http.StatusOK`
to `saveCache`; the identical second request is served from the cache without
re-invoking the handler, with the same error body but status 200 instead of
the 400 of the first outcome. -/
theorem c1_error_cached_with_status_ok :
    c1First.status = statusBadRequest ∧
    c1First.handlerInvoked = true ∧
    c1First.store = [("app:/youtube/v3/search?channelId=bad",
      ⟨StoredVal.httpEntry ⟨statusOK, Resp.errorResp "channelId(bad) is invalid"⟩,
        10 * timeSecond⟩)] ∧
    c1Second.handlerInvoked = false ∧
    c1Second.body = Resp.errorResp "channelId(bad) is invalid" ∧
    c1Second.status = statusOK := by decide

/-- The address-list arms of the validation reject an empty list and a list
holding an empty address. -/
theorem addrs_bad_not_valid (addrs : List config.RedisAddress)
    (h : (addrs.isEmpty || addrs.any fun a => a.Addr == "") = true) :
    config.addrsValid addrs = false := by
  unfold config.addrsValid
  simp only [Bool.or_eq_true] at h
  rcases h with h1 | h1
  · simp [h1]
  · rw [List.any_eq_true] at h1
    obtain ⟨a, ha, he⟩ := h1
    have he2 : a.Addr = "" := by simpa using he
    have hall : addrs.all (fun a => a.Addr.length != 0) = false := by
      rw [Bool.eq_false_iff]
      intro hc
      rw [List.all_eq_true] at hc
      have := hc a ha
      rw [he2] at this
      simp at this
    simp [hall]

/-- A redis section with a bad shape fails the redis arm of the validation. -/
theorem redisShapeBad_not_valid (redis : config.RedisService)
    (h : config.redisShapeBad redis = true) :
    config.redisValid (some redis) = false := by
  obtain ⟨ty, ocl, osi, ose, ore⟩ := redis
  simp only [config.redisShapeBad] at h
  simp only [config.redisValid]
  by_cases h1 : ty = config.Cluster
  · rw [if_pos h1] at h ⊢
    cases ocl with
    | none => rfl
    | some cluster => exact addrs_bad_not_valid cluster.Addrs h
  · rw [if_neg h1] at h ⊢
    by_cases h2 : ty = config.Single
    · rw [if_pos h2] at h ⊢
      cases osi with
      | none => rfl
      | some single =>
        have hs : single.Instance.Addr = "" := by simpa using h
        simp [hs]
    · rw [if_neg h2] at h ⊢
      by_cases h3 : ty = config.SentinelType
      · rw [if_pos h3] at h ⊢
        cases ose with
        | none => rfl
        | some sentinel => exact addrs_bad_not_valid sentinel.Addrs h
      · rw [if_neg h3] at h ⊢
        by_cases h4 : ty = config.Replica
        · rw [if_pos h4] at h ⊢
          cases ore with
          | none => rfl
          | some replica =>
            simp only [Bool.or_eq_true] at h
            rcases h with ((hA | hB) | hC) | hD
            · have hm := addrs_bad_not_valid replica.MasterAddrs (by simp [hA])
              simp [hm]
            · have hm := addrs_bad_not_valid replica.MasterAddrs (by simp [hB])
              simp [hm]
            · have hm := addrs_bad_not_valid replica.SlaveAddrs (by simp [hC])
              simp [hm]
            · have hm := addrs_bad_not_valid replica.SlaveAddrs (by simp [hD])
              simp [hm]
        · rw [if_neg h4] at h ⊢

/-- C9: a configuration whose redis section selects a topology with a missing
or inconsistent shape — an unsupported type name, a missing variant block, an
empty address list, or an empty address inside a list — fails validation, and
loading it returns an error. -/
theorem c9_bad_topology_rejected (c : config.Conf) (redis : config.RedisService)
    (hr : c.Redis = some redis) (hbad : config.redisShapeBad redis = true) :
    config.Conf.Valid c = false ∧
    config.Load c = Except.error "invalid configuration" := by
  have hred : config.redisValid c.Redis = false := by
    rw [hr]
    exact redisShapeBad_not_valid redis hbad
  have hv : config.Conf.Valid c = false := by
    unfold config.Conf.Valid
    split_ifs <;> first | rfl | exact hred
  refine ⟨hv, ?_⟩
  unfold config.Load
  simp [hv]

/-- Witness for C9: a configuration selecting the cluster topology with no
cluster block is rejected by validation and by loading. -/
theorem c9_bad_topology_rejected_witness :
    config.Conf.Valid c9Conf = false ∧
    config.Load c9Conf = Except.error "invalid configuration" :=
  c9_bad_topology_rejected c9Conf ⟨"cluster", none, none, none, none⟩ rfl (by decide)

end Claims

end YTRelay
